import Mathlib

/-!
Shallow embedding of the Cloudflare Worker in src/index.js of the
zola-resume repository, together with theorems settling the claims
about its request-routing and transformation pipeline.

Modelling conventions:
- JavaScript strings are Lean strings; substring operations (includes,
  replace, startsWith, endsWith) are modelled over lists of characters
  with the exact JS semantics (replace with a string pattern replaces
  only the first occurrence).
- A settled JS promise is an `Except JsError` value: `Except.ok` is a
  fulfilled promise, `Except.error` a rejected one.  An async function
  body that awaits a call sequences the `Except`; a `return f(x)` of a
  promise inside a try block adopts the promise after the try scope is
  left, so by JS semantics its rejection is NOT routed through the
  sibling catch clause.  The embedding encodes that rule explicitly
  where it matters (handleRequest and handleApi).
- The platform fetch is an oracle `FetchEnv` from a request pathname to
  a settled response; the functions that fetch also return the ordered
  trace of pathnames they fetched, so theorems can speak about which
  fetches happen and in which order.
- Header maps are association lists with case-insensitive keys
  (JS Headers semantics); `hSet` is last-write-wins overwrite.
-/

/-- A JS exception (or promise rejection) reduced to its message. -/
abbrev JsError := String

/-- Find the index of the first occurrence of `pat` in `s`
(JS String.prototype.indexOf over characters). -/
def subFind (pat : List Char) : List Char → Option Nat
  | [] => if pat.isPrefixOf ([] : List Char) then some 0 else none
  | c :: t =>
    if pat.isPrefixOf (c :: t) then some 0
    else (subFind pat t).map (fun n => n + 1)

/-- JS String.prototype.includes. -/
def strIncludes (s pat : String) : Bool := (subFind pat.toList s.toList).isSome

/-- Replace the first occurrence of `pat` by `repl`
(JS String.prototype.replace with a string pattern). -/
def replaceFirstL (pat repl : List Char) : List Char → List Char
  | [] => if pat.isPrefixOf ([] : List Char) then repl else []
  | c :: t =>
    if pat.isPrefixOf (c :: t) then repl ++ (c :: t).drop pat.length
    else c :: replaceFirstL pat repl t

/-- String wrapper for `replaceFirstL`. -/
def replaceFirst (s pat repl : String) : String :=
  String.mk (replaceFirstL pat.toList repl.toList s.toList)

/-- JS String.prototype.startsWith. -/
def strHasPfx (s pre : String) : Bool := pre.toList.isPrefixOf s.toList

/-- JS String.prototype.endsWith. -/
def strHasSfx (s suf : String) : Bool := suf.toList.isSuffixOf s.toList

/-- Lower-cased key, for the case-insensitive JS Headers map. -/
def lowerKey (s : String) : List Char := s.toList.map Char.toLower

/-- JS Headers.get (case-insensitive). -/
def hGet (hs : List (String × String)) (k : String) : Option String :=
  (hs.find? (fun p => lowerKey p.1 == lowerKey k)).map (fun p => p.2)

/-- JS Headers.set: case-insensitive last-write-wins overwrite. -/
def hSet (hs : List (String × String)) (k v : String) : List (String × String) :=
  (hs.filter (fun p => !(lowerKey p.1 == lowerKey k))) ++ [(k, v)]

/-- Lookup in a JS object literal used as a table, e.g.
CONFIG.REDIRECTS[pathname] (exact, case-sensitive key). -/
def jsLookup (table : List (String × String)) (k : String) : Option String :=
  (table.find? (fun p => p.1 == k)).map (fun p => p.2)

/-- CONFIG.SECURITY_HEADERS from src/index.js lines 16-23, in source order. -/
def SECURITY_HEADERS : List (String × String) :=
  [("X-Frame-Options", "DENY"),
   ("X-Content-Type-Options", "nosniff"),
   ("X-XSS-Protection", "1; mode=block"),
   ("Referrer-Policy", "strict-origin-when-cross-origin"),
   ("Permissions-Policy", "camera=(), microphone=(), geolocation=(), payment=()"),
   ("Strict-Transport-Security", "max-age=31536000; includeSubDomains; preload")]

/-- CONFIG.CLEAN_URLS from src/index.js lines 26-31. -/
def CLEAN_URLS : List (String × String) :=
  [("/resume", "/resume.html"),
   ("/contact", "/contact.html"),
   ("/projects", "/projects.html"),
   ("/blog", "/blog.html")]

/-- CONFIG.REDIRECTS from src/index.js lines 34-39. -/
def REDIRECTS : List (String × String) :=
  [("/cv", "/resume"),
   ("/portfolio", "/projects"),
   ("/linkedin", "https://linkedin.com/in/jonathan-vercoutre"),
   ("/github", "https://github.com/jvercoutre")]

/-- The JSON value a request body parses to (request.json()). -/
inductive Json where
  | null
  | undefined
  | bool (b : Bool)
  | num (n : Int)
  | str (s : String)
  | arr (xs : List Json)
  | obj (fields : List (String × Json))

/-- JS truthiness of a value (NaN not modelled). -/
def truthy : Json → Bool
  | .null => false
  | .undefined => false
  | .bool b => b
  | .num n => !(n == 0)
  | .str s => !(s == "")
  | .arr _ => true
  | .obj _ => true

/-- JS property access `v[k]`: undefined for a missing field or a
non-object primitive, a TypeError for null or undefined. -/
def jGetE (j : Json) (k : String) : Except JsError Json :=
  match j with
  | .null => .error ("TypeError: Cannot read properties of null (reading " ++ k ++ ")")
  | .undefined => .error ("TypeError: Cannot read properties of undefined (reading " ++ k ++ ")")
  | .obj fields => .ok (((fields.find? (fun p => p.1 == k)).map (fun p => p.2)).getD .undefined)
  | _ => .ok .undefined

/-- An HTTP Response as the worker observes and builds it. -/
structure Resp where
  status : Nat
  statusText : String
  headers : List (String × String)
  body : Option String
deriving DecidableEq

/-- JS Response.ok: status in the 2xx range. -/
def respOk (r : Resp) : Bool := 200 ≤ r.status && r.status ≤ 299

/-- JS response.text(): a null body reads as the empty string. -/
def respText (b : Option String) : String := b.getD ""

/-- An incoming Request: method, split URL, headers, and the settled
outcome of request.json() (the platform JSON parser is an oracle: it
either fulfills with a value or rejects with a parse error). -/
structure Request where
  method : String
  pathname : String
  origin : String
  headers : List (String × String)
  jsonBody : Except JsError Json

/-- The platform fetch as an oracle: the worker only ever varies the
pathname of the fetched URL (host and query are preserved), so the
oracle is keyed by pathname and yields a settled response. -/
abbrev FetchEnv := String → Except JsError Resp

/-- Path rewriting at the top of getOriginResponse (src/index.js
lines 118-126): root goes to /index.html, then clean-URL aliases. -/
def resolvePath (p : String) : String :=
  let p1 := if p = "/" then "/index.html" else p
  match jsLookup CLEAN_URLS p1 with
  | some target => target
  | none => p1

/-- The guard for the speculative .html fetch (src/index.js line 129):
no dot anywhere in the path and no trailing slash. -/
def speculateCond (p : String) : Bool :=
  !(strIncludes p ".") && !(strHasSfx p "/")

/-- The default plain-text 404 (src/index.js lines 168-171). -/
def plain404 : Resp :=
  { status := 404, statusText := "",
    headers := [("Content-Type", "text/plain")], body := some "Page Not Found" }

/-- Lines 144-174 of getOriginResponse: fetch the final path; on a 404
try /404.html, returning its body with status forced to 404 and its own
headers when it is fetchable and 2xx, else the plain-text 404. -/
def fetchFinalResult (env : FetchEnv) (p2 : String) : Except JsError Resp :=
  match env p2 with
  | .error e => .error e
  | .ok r =>
    if r.status = 404 then
      match env "/404.html" with
      | .ok nf =>
        if respOk nf then
          .ok { status := 404, statusText := "Not Found",
                headers := nf.headers, body := nf.body }
        else .ok plain404
      | .error _ => .ok plain404
    else .ok r

/-- The pathnames fetched by `fetchFinalResult`, in order: the final
path, then /404.html when the final fetch returned a 404. -/
def fetchFinalTrace (env : FetchEnv) (p2 : String) : List String :=
  match env p2 with
  | .error _ => [p2]
  | .ok r => if r.status = 404 then [p2, "/404.html"] else [p2]

/-- Result and trace of the final stage, with `tr` the fetches already
made by the caller. -/
def fetchFinal (env : FetchEnv) (p2 : String) (tr : List String) :
    Except JsError Resp × List String :=
  (fetchFinalResult env p2, tr ++ fetchFinalTrace env p2)

/-- Lines 128-148 of getOriginResponse applied to the rewritten path:
speculatively fetch path + ".html" when the guard holds (returning it on
2xx, swallowing a rejection or non-2xx), then fall back to the rewritten
path and the 404 handling of `fetchFinal`. -/
def speculativeStage (env : FetchEnv) (p2 : String) :
    Except JsError Resp × List String :=
  if speculateCond p2 then
    match env (p2 ++ ".html") with
    | .ok r =>
      if respOk r then (.ok r, [p2 ++ ".html"])
      else fetchFinal env p2 [p2 ++ ".html"]
    | .error _ => fetchFinal env p2 [p2 ++ ".html"]
  else fetchFinal env p2 []

/-- getOriginResponse (src/index.js lines 114-175): rewrite the path
(root, clean URLs), then the speculative .html stage and the 404
handling. -/
def getOriginResponse (env : FetchEnv) (req : Request) :
    Except JsError Resp × List String :=
  speculativeStage env (resolvePath req.pathname)

/-- Exact text the worker injects before the closing head tag
(src/index.js lines 227-238: the template literal minus its trailing
close-head token). -/
def INJECT_SNIPPET : String :=
  "  <!-- Injected by Cloudflare Worker -->\n  <meta name=\"generator\" content=\"Zola + Cloudflare Workers\">\n  <script>\n    // Simple analytics\n    if (\x27navigator\x27 in window && \x27sendBeacon\x27 in navigator) \x7b\n      navigator.sendBeacon(\x27/api/analytics\x27, JSON.stringify(\x7b\n        url: location.href,\n        referrer: document.referrer,\n        timestamp: Date.now()\n      \x7d));\n    \x7d\n  </script>\n"

/-- The full replacement string passed to replace in transformHtml. -/
def headReplacement : String := INJECT_SNIPPET ++ "</head>"

/-- The closing head tag as a character list. -/
def headCloseL : List Char := "</head>".toList

/-- transformHtml (src/index.js lines 221-247): buffer the body text and
replace the first closing head tag with the snippet followed by the
closing head tag again; status, statusText and headers are preserved. -/
def transformHtml (r : Resp) : Resp :=
  { status := r.status, statusText := r.statusText, headers := r.headers,
    body := some (replaceFirst (respText r.body) "</head>" headReplacement) }

/-- The staticExtensions list of isStaticAsset (src/index.js line 454). -/
def staticExtensions : List String :=
  [".css", ".js", ".png", ".jpg", ".jpeg", ".gif", ".svg", ".webp",
   ".woff", ".woff2", ".ttf", ".ico"]

/-- isStaticAsset (src/index.js lines 453-456). -/
def isStaticAsset (pathname : String) : Bool :=
  staticExtensions.any (fun ext => strHasSfx pathname ext) || strHasPfx pathname "/static/"

/-- The forEach over Object.entries(CONFIG.SECURITY_HEADERS) at
src/index.js lines 191-193, setting each header in source order. -/
def setSecurityHeaders (hs : List (String × String)) : List (String × String) :=
  SECURITY_HEADERS.foldl (fun acc kv => hSet acc kv.1 kv.2) hs

/-- The cache-header step of applyTransformations (src/index.js lines
196-202): html content type wins, then static-asset paths, else no
explicit cache header is set. -/
def cacheStep (pathname contentType : String) (hs : List (String × String)) :
    List (String × String) :=
  if strIncludes contentType "text/html" then
    hSet hs "Cache-Control" "public, max-age=3600"
  else if isStaticAsset pathname then
    hSet hs "Cache-Control" "public, max-age=31536000, immutable"
  else hs

/-- applyTransformations (src/index.js lines 183-214): clone, overlay the
security headers, set the cache header, add the two custom headers, then
rewrite the body when the origin response is 2xx html. -/
def applyTransformations (req : Request) (r : Resp) : Resp :=
  let contentType := (hGet r.headers "content-type").getD ""
  let hs3 :=
    hSet (hSet (cacheStep req.pathname contentType (setSecurityHeaders r.headers))
           "X-Powered-By" "Cloudflare Workers")
      "X-Resume-Version" "2024.1"
  let r1 : Resp :=
    { status := r.status, statusText := r.statusText, headers := hs3, body := r.body }
  if strIncludes contentType "text/html" && respOk r then transformHtml r1 else r1

/-- The corsHeaders object built at src/index.js lines 259-264. -/
def corsHeaders (origin : String) : List (String × String) :=
  [("Access-Control-Allow-Origin", origin),
   ("Access-Control-Allow-Methods", "GET, POST, OPTIONS"),
   ("Access-Control-Allow-Headers", "Content-Type"),
   ("Access-Control-Max-Age", "86400")]

/-- The spread of corsHeaders plus the json content type used by the API
handlers. -/
def jsonHeaders (cors : List (String × String)) : List (String × String) :=
  cors ++ [("Content-Type", "application/json")]

/-- handleContactForm (src/index.js lines 303-336).  The awaited
request.json() is NOT wrapped in any try inside this function, so a
parse rejection propagates out of it as a rejected promise. -/
def handleContactForm (req : Request) (cors : List (String × String)) :
    Except JsError Resp :=
  if req.method ≠ "POST" then
    .ok { status := 405, statusText := "", headers := jsonHeaders cors,
          body := some "\x7b\"error\":\"Method not allowed\"\x7d" }
  else
    match req.jsonBody with
    | .error e => .error e
    | .ok formData =>
      match jGetE formData "name" with
      | .error e => .error e
      | .ok n =>
      match jGetE formData "email" with
      | .error e => .error e
      | .ok em =>
      match jGetE formData "message" with
      | .error e => .error e
      | .ok m =>
        if !(truthy n) || !(truthy em) || !(truthy m) then
          .ok { status := 400, statusText := "", headers := jsonHeaders cors,
                body := some "\x7b\"error\":\"Missing required fields\"\x7d" }
        else
          .ok { status := 200, statusText := "", headers := jsonHeaders cors,
                body := some "\x7b\"success\":true,\"message\":\"Thank you for your message!\"\x7d" }

/-- handleAnalytics (src/index.js lines 344-370).  A non-POST request
returns a bare 204 built with no headers at all (line 346).  For a POST,
the json parse and the store write sit inside a try whose catch only
logs, so the 204 with the CORS headers is returned whether or not the
body parses or the store write succeeds; the response does not depend on
either outcome. -/
def handleAnalytics (req : Request) (cors : List (String × String)) :
    Except JsError Resp :=
  if req.method ≠ "POST" then
    .ok { status := 204, statusText := "", headers := [], body := none }
  else
    .ok { status := 204, statusText := "", headers := cors, body := none }

/-- JSON.stringify of the fixed resumeData object (src/index.js
lines 380-388). -/
def resumeJson : String :=
  "\x7b\"name\":\"Jonathan Vercoutre\",\"title\":\"Senior Site Reliability Engineer\",\"location\":\"Your Location\",\"email\":\"your.email@domain.com\",\"website\":\"https://jonathan.vercout.re\",\"summary\":\"Experienced SRE with expertise in...\"\x7d"

/-- handleResumeApi (src/index.js lines 378-397). -/
def handleResumeApi (_req : Request) (cors : List (String × String)) :
    Except JsError Resp :=
  .ok { status := 200, statusText := "",
        headers := cors ++ [("Content-Type", "application/json"),
                            ("Cache-Control", "public, max-age=300")],
        body := some resumeJson }

/-- handleApi (src/index.js lines 254-295).  The switch returns each
handler invocation (a promise) from inside a try; by JS async semantics
a return of a promise inside try adopts it outside the try scope, so a
handler rejection is NOT routed through the catch at lines 288-294 (the
catch could only see a synchronous throw, and nothing in the switch
throws synchronously); the rejection propagates to the caller.  The
embedding therefore passes the handler result through unhandled. -/
def handleApi (req : Request) : Except JsError Resp :=
  if req.method = "OPTIONS" then
    .ok { status := 200, statusText := "",
          headers := corsHeaders req.origin, body := none }
  else if req.pathname = "/api/contact" then
    handleContactForm req (corsHeaders req.origin)
  else if req.pathname = "/api/analytics" then
    handleAnalytics req (corsHeaders req.origin)
  else if req.pathname = "/api/resume" then
    handleResumeApi req (corsHeaders req.origin)
  else
    .ok { status := 404, statusText := "",
          headers := jsonHeaders (corsHeaders req.origin),
          body := some "\x7b\"error\":\"Endpoint not found\"\x7d" }

/-- The health response (src/index.js lines 63-71); the ISO timestamp is
abstracted to the numeric clock rendered into the JSON body. -/
def healthResp (now : Nat) : Resp :=
  { status := 200, statusText := "",
    headers := [("Content-Type", "application/json")],
    body := some ("\x7b\"status\":\"ok\",\"timestamp\":\"" ++ toString now
                  ++ "\",\"version\":\"1.0.0\"\x7d") }

/-- The top-level 500 response (src/index.js lines 102-105). -/
def err500 : Resp :=
  { status := 500, statusText := "", headers := SECURITY_HEADERS,
    body := some "Internal Server Error" }

/-- handleRequest (src/index.js lines 57-107): health check, redirect
table, API dispatch, then origin resolution plus transformation.  The
try/catch converts a failure of the awaited origin/transform stages into
the 500 response with the security headers.  The API branch, however,
returns the handleApi promise from inside the try WITHOUT awaiting it,
so by JS async semantics a rejection of that promise bypasses the catch
and escapes handleRequest; the embedding passes that Except through.
The fire-and-forget trackPageView call has its own detached catch and
never affects the response, so it does not appear here (its store effect
is modelled separately by trackPageView below). -/
def handleRequest (env : FetchEnv) (now : Nat) (req : Request) :
    Except JsError Resp :=
  if req.pathname = "/health" then .ok (healthResp now)
  else
    match jsLookup REDIRECTS req.pathname with
    | some target =>
      .ok { status := 301, statusText := "",
            headers := [("Location",
              if strHasPfx target "http" then target else req.origin ++ target)],
            body := none }
    | none =>
      if strHasPfx req.pathname "/api/" then handleApi req
      else
        match (getOriginResponse env req).1 with
        | .ok r => .ok (applyTransformations req r)
        | .error _ => .ok err500

/-- The ANALYTICS key-value binding: a list of key-value pairs (TTL
expiry is handled by the platform and not observed by any claim). -/
abbrev KVStore := List (String × String)

/-- ANALYTICS.list with a prefix: the keys whose name starts with it. -/
def kvListKeys (store : KVStore) (pre : String) : List String :=
  (store.filter (fun p => strHasPfx p.1 pre)).map (fun p => p.1)

/-- The JSON value trackPageView stores (src/index.js lines 409-416);
the cf-derived fields (client IP, country) are platform metadata outside
the modelled Request and are not observed by any claim. -/
def pageViewValue (now : Nat) (req : Request) : String :=
  "\x7b\"url\":\"" ++ req.pathname ++ "\",\"timestamp\":" ++ toString now
    ++ ",\"referrer\":\"" ++ ((hGet req.headers "Referer").getD "")
    ++ "\",\"userAgent\":\"" ++ ((hGet req.headers "User-Agent").getD "") ++ "\"\x7d"

/-- trackPageView (src/index.js lines 403-418): put one record under the
key built from the millisecond clock. -/
def trackPageView (now : Nat) (req : Request) (store : KVStore) : KVStore :=
  store ++ [("pageview:" ++ toString now, pageViewValue now req)]

/-- The number of milliseconds in a day. -/
def msPerDay : Nat := 86400000

/-- The calendar day of a millisecond clock value; abstracts the date
part of toISOString at src/index.js line 427. -/
def dayOf (ms : Nat) : Nat := ms / msPerDay

/-- The summary object handleScheduled computes (src/index.js lines
433-439); uniqueVisitors, topPages and countries are never populated by
the source and are omitted. -/
structure DailyStats where
  date : Nat
  totalPageViews : Nat
deriving DecidableEq

/-- handleScheduled (src/index.js lines 424-446): list every key with
the prefix used by trackPageView and count them. -/
def handleScheduled (now : Nat) (store : KVStore) : DailyStats :=
  { date := dayOf now, totalPageViews := (kvListKeys store "pageview:").length }

/-- Modelled from the spec words only (claim C2 as written): a path has
a file extension when its final slash-separated segment contains a dot. -/
def lastSegmentL (s : List Char) : List Char :=
  s.foldl (fun acc c => if c = '/' then [] else acc ++ [c]) []

/-- Modelled from the spec words only: the file-extension test claim C2
quantifies over. -/
def specHasFileExt (p : String) : Bool :=
  (lastSegmentL p.toList).contains '.'

/-- Modelled from the spec words only (claim C9 as written): the day a
stored pageview record belongs to, read from the millisecond timestamp
embedded in its key after the prefix. -/
def dayOfKey (k : String) : Option Nat :=
  if strHasPfx k "pageview:" then
    let ds := (k.toList.drop 9).takeWhile (fun c => c.isDigit)
    if ds = [] then none
    else some (dayOf (ds.foldl (fun acc c => acc * 10 + (c.toNat - 48)) 0))
  else none

/-! Concrete requests, responses and fetch oracles used by the
counterexample and witness theorems below. -/

/-- A fetch oracle that answers every path with a plain 200. -/
def envAll200 : FetchEnv := fun _ =>
  .ok { status := 200, statusText := "", headers := [], body := some "page" }

/-- A GET request for a path whose directory part contains a dot but
whose final segment has no file extension. -/
def reqDotDir : Request :=
  { method := "GET", pathname := "/v1.0/about", origin := "https://site",
    headers := [], jsonBody := .ok .null }

/-- A 200 html page served for the speculative /about.html fetch. -/
def respW2 : Resp :=
  { status := 200, statusText := "",
    headers := [("Content-Type", "text/html")], body := some "<h1>About</h1>" }

/-- An oracle that only knows /about.html. -/
def envW2 : FetchEnv := fun p =>
  if p = "/about.html" then .ok respW2 else .error "network error"

/-- A GET request for the extension-free path /about. -/
def reqW2 : Request :=
  { method := "GET", pathname := "/about", origin := "https://site",
    headers := [], jsonBody := .ok .null }

/-- The origin 404 answer used in the C3 witness. -/
def resp404W : Resp :=
  { status := 404, statusText := "", headers := [], body := some "origin 404" }

/-- The custom /404.html document used in the C3 witness. -/
def nf404W : Resp :=
  { status := 200, statusText := "",
    headers := [("Content-Type", "text/html")], body := some "custom not found" }

/-- An oracle serving the custom 404 document and a 404 for the rest. -/
def envW3 : FetchEnv := fun p =>
  if p = "/404.html" then .ok nf404W else .ok resp404W

/-- A GET request for a missing path with a file extension. -/
def reqW3 : Request :=
  { method := "GET", pathname := "/missing.txt", origin := "https://site",
    headers := [], jsonBody := .ok .null }

/-- A POST to the contact endpoint whose body is not valid JSON: the
request.json() promise rejects with a SyntaxError. -/
def reqMalformedContact : Request :=
  { method := "POST", pathname := "/api/contact", origin := "https://jonathan.vercout.re",
    headers := [("Content-Type", "application/json")],
    jsonBody := .error "SyntaxError: Unexpected token i in JSON at position 0" }

/-- A POST to the analytics endpoint with an unparsable body. -/
def reqW5a : Request :=
  { method := "POST", pathname := "/api/analytics", origin := "https://site",
    headers := [], jsonBody := .error "SyntaxError: Unexpected end of JSON input" }

/-- A POST to the contact endpoint with an unparsable body. -/
def reqW5c : Request :=
  { method := "POST", pathname := "/api/contact", origin := "https://site",
    headers := [], jsonBody := .error "SyntaxError: Unexpected end of JSON input" }

/-- A plain page request used as the C4 witness input. -/
def reqW4 : Request :=
  { method := "GET", pathname := "/resume", origin := "https://site",
    headers := [], jsonBody := .ok .null }

/-- An origin response that already carries conflicting security
headers, overwritten by the transformation stage. -/
def rW4 : Resp :=
  { status := 200, statusText := "OK",
    headers := [("Content-Type", "text/html"), ("X-Frame-Options", "ALLOWALL"),
                ("Strict-Transport-Security", "max-age=0")],
    body := some "<head>a</head>" }

/-- A page request used as the C6 witness input. -/
def reqW6 : Request :=
  { method := "GET", pathname := "/page", origin := "https://site",
    headers := [], jsonBody := .ok .null }

/-- A 200 html origin response with one closing head tag. -/
def rW6 : Resp :=
  { status := 200, statusText := "OK",
    headers := [("Content-Type", "text/html; charset=utf-8")],
    body := some "<html><head><title>t</title></head><body>b</body></html>" }

/-- A request for a path under the /static/ prefix. -/
def reqC7 : Request :=
  { method := "GET", pathname := "/static/page", origin := "https://site",
    headers := [], jsonBody := .ok .null }

/-- An html response served on that static-asset path. -/
def rC7 : Resp :=
  { status := 200, statusText := "OK",
    headers := [("Content-Type", "text/html")], body := some "<p>hello</p>" }

/-- A stylesheet request used as the C7 witness input. -/
def reqW7 : Request :=
  { method := "GET", pathname := "/app.css", origin := "https://site",
    headers := [], jsonBody := .ok .null }

/-- A css origin response. -/
def rW7 : Resp :=
  { status := 200, statusText := "OK",
    headers := [("Content-Type", "text/css")], body := some "body \x7b color: red \x7d" }

/-- A GET (non-POST) request to the analytics endpoint. -/
def reqC8 : Request :=
  { method := "GET", pathname := "/api/analytics", origin := "https://site",
    headers := [], jsonBody := .ok .null }

/-- A CORS preflight request to an API path. -/
def reqW8 : Request :=
  { method := "OPTIONS", pathname := "/api/resume", origin := "https://site",
    headers := [], jsonBody := .ok .null }

/-- A page request used for C9 pageview records. -/
def reqW9 : Request :=
  { method := "GET", pathname := "/blog", origin := "https://site",
    headers := [("Referer", "https://elsewhere")], jsonBody := .ok .null }

/-- A health-check request. -/
def reqW10 : Request :=
  { method := "GET", pathname := "/health", origin := "https://site",
    headers := [], jsonBody := .ok .null }

/-- An oracle no pre-transformation branch ever consults. -/
def envW10 : FetchEnv := fun _ => .error "unreachable"

/-- A POST to the analytics endpoint with a parsable body. -/
def reqW8b : Request :=
  { method := "POST", pathname := "/api/analytics", origin := "https://w8",
    headers := [], jsonBody := .ok .null }

/-- The 204 response the analytics endpoint returns for that POST. -/
def respW8b : Resp :=
  { status := 204, statusText := "", headers := corsHeaders "https://w8", body := none }

lemma find?_filter_of_imp {α : Type} (l : List α) (pr q : α → Bool)
    (h : ∀ x, pr x = true → q x = true) :
    List.find? pr (l.filter q) = List.find? pr l := by
  induction l with
  | nil => rfl
  | cons a t ih =>
    by_cases ha : q a = true
    · rw [List.filter_cons_of_pos ha]
      by_cases hpa : pr a = true
      · rw [List.find?_cons_of_pos _ hpa, List.find?_cons_of_pos _ hpa]
      · rw [List.find?_cons_of_neg _ hpa, List.find?_cons_of_neg _ hpa]
        exact ih
    · have hpa : ¬ (pr a = true) := fun hc => ha (h a hc)
      rw [List.filter_cons_of_neg ha, List.find?_cons_of_neg _ hpa]
      exact ih

lemma hGet_hSet_same (hs : List (String × String)) (k v k' : String)
    (h : lowerKey k' = lowerKey k) : hGet (hSet hs k v) k' = some v := by
  unfold hGet hSet
  rw [List.find?_append]
  have h1 : List.find? (fun p => lowerKey p.1 == lowerKey k')
      (hs.filter fun p => !(lowerKey p.1 == lowerKey k)) = none := by
    rw [List.find?_eq_none]
    intro x hx
    have h2 := (List.mem_filter.mp hx).2
    simp only [Bool.not_eq_true', beq_eq_false_iff_ne, ne_eq] at h2
    simp only [beq_iff_eq, h]
    exact h2
  rw [h1]
  have h3 : (lowerKey k == lowerKey k') = true := by
    simp [beq_iff_eq, h.symm]
  simp [List.find?, h3]

lemma hGet_hSet_diff (hs : List (String × String)) (k v k' : String)
    (h : lowerKey k' ≠ lowerKey k) : hGet (hSet hs k v) k' = hGet hs k' := by
  unfold hGet hSet
  rw [List.find?_append]
  rw [find?_filter_of_imp]
  · have h4 : List.find? (fun p => lowerKey p.1 == lowerKey k') [(k, v)] = none := by
      have h5 : (lowerKey k == lowerKey k') = false := by
        simp only [beq_eq_false_iff_ne, ne_eq]
        exact fun hc => h hc.symm
      simp only [List.find?, h5]
    rw [h4, Option.or_none]
  · intro x hx
    simp only [beq_iff_eq] at hx
    simp only [Bool.not_eq_true', beq_eq_false_iff_ne, ne_eq, hx]
    exact h

lemma setSecurityHeaders_expand (hs : List (String × String)) :
    setSecurityHeaders hs =
      hSet (hSet (hSet (hSet (hSet (hSet hs "X-Frame-Options" "DENY")
        "X-Content-Type-Options" "nosniff") "X-XSS-Protection" "1; mode=block")
        "Referrer-Policy" "strict-origin-when-cross-origin")
        "Permissions-Policy" "camera=(), microphone=(), geolocation=(), payment=()")
        "Strict-Transport-Security" "max-age=31536000; includeSubDomains; preload" := rfl

lemma hGet_setSec_diff (hs : List (String × String)) (k' : String)
    (h1 : lowerKey k' ≠ lowerKey "X-Frame-Options")
    (h2 : lowerKey k' ≠ lowerKey "X-Content-Type-Options")
    (h3 : lowerKey k' ≠ lowerKey "X-XSS-Protection")
    (h4 : lowerKey k' ≠ lowerKey "Referrer-Policy")
    (h5 : lowerKey k' ≠ lowerKey "Permissions-Policy")
    (h6 : lowerKey k' ≠ lowerKey "Strict-Transport-Security") :
    hGet (setSecurityHeaders hs) k' = hGet hs k' := by
  rw [setSecurityHeaders_expand, hGet_hSet_diff _ _ _ _ h6, hGet_hSet_diff _ _ _ _ h5,
    hGet_hSet_diff _ _ _ _ h4, hGet_hSet_diff _ _ _ _ h3, hGet_hSet_diff _ _ _ _ h2,
    hGet_hSet_diff _ _ _ _ h1]

lemma hGet_cacheStep_diff (pathname ct : String) (hs : List (String × String))
    (k' : String) (h : lowerKey k' ≠ lowerKey "Cache-Control") :
    hGet (cacheStep pathname ct hs) k' = hGet hs k' := by
  unfold cacheStep
  split
  · rw [hGet_hSet_diff _ _ _ _ h]
  · split
    · rw [hGet_hSet_diff _ _ _ _ h]
    · rfl

lemma applyTransformations_headers (req : Request) (r : Resp) :
    (applyTransformations req r).headers =
      hSet (hSet (cacheStep req.pathname ((hGet r.headers "content-type").getD "")
               (setSecurityHeaders r.headers))
             "X-Powered-By" "Cloudflare Workers")
        "X-Resume-Version" "2024.1" := by
  unfold applyTransformations
  dsimp only
  split
  · rfl
  · rfl

lemma applyTransformations_body_html (req : Request) (r : Resp)
    (hct : strIncludes ((hGet r.headers "content-type").getD "") "text/html" = true)
    (hok : respOk r = true) :
    (applyTransformations req r).body =
      some (replaceFirst (respText r.body) "</head>" headReplacement) := by
  unfold applyTransformations
  dsimp only
  rw [hct, hok]
  rfl

lemma hGet_applyTransformations_nonCache (req : Request) (r : Resp) (k' : String)
    (h0 : lowerKey k' ≠ lowerKey "X-Resume-Version")
    (h1 : lowerKey k' ≠ lowerKey "X-Powered-By")
    (h2 : lowerKey k' ≠ lowerKey "Cache-Control") :
    hGet (applyTransformations req r).headers k' =
      hGet (setSecurityHeaders r.headers) k' := by
  rw [applyTransformations_headers, hGet_hSet_diff _ _ _ _ h0,
    hGet_hSet_diff _ _ _ _ h1, hGet_cacheStep_diff _ _ _ _ h2]

lemma replaceFirstL_not_found (pat repl : List Char) (s : List Char)
    (h : subFind pat s = none) : replaceFirstL pat repl s = s := by
  induction s with
  | nil =>
    unfold subFind at h
    unfold replaceFirstL
    split at h
    · exact absurd h (by simp)
    · rw [if_neg]
      assumption
  | cons c t ih =>
    unfold subFind at h
    unfold replaceFirstL
    split at h
    · exact absurd h (by simp)
    · rw [if_neg]
      · rw [ih (by simpa using h)]
      · assumption

lemma replaceFirstL_found (pat repl : List Char) (s : List Char) (i : Nat)
    (h : subFind pat s = some i) :
    replaceFirstL pat repl s = s.take i ++ repl ++ s.drop (i + pat.length) := by
  induction s generalizing i with
  | nil =>
    unfold subFind at h
    unfold replaceFirstL
    split at h
    · have hi : i = 0 := by simpa using h.symm
      subst hi
      rw [if_pos]
      · simp
      · assumption
    · exact absurd h (by simp)
  | cons c t ih =>
    unfold subFind at h
    unfold replaceFirstL
    split at h
    · have hi : i = 0 := by simpa using h.symm
      subst hi
      rw [if_pos]
      · simp
      · assumption
    · rw [if_neg]
      · rcases Option.map_eq_some'.mp h with ⟨j, hj, hij⟩
        subst hij
        rw [ih j hj]
        have harith : j + 1 + pat.length = (j + pat.length) + 1 := by omega
        rw [harith, List.take_succ_cons, List.drop_succ_cons]
        simp
      · assumption

lemma subFind_prefixAt (pat : List Char) (s : List Char) (i : Nat)
    (h : subFind pat s = some i) : pat.isPrefixOf (s.drop i) = true := by
  induction s generalizing i with
  | nil =>
    unfold subFind at h
    split at h
    · have hi : i = 0 := by simpa using h.symm
      subst hi
      rw [List.drop_zero]
      assumption
    · exact absurd h (by simp)
  | cons c t ih =>
    unfold subFind at h
    split at h
    · have hi : i = 0 := by simpa using h.symm
      subst hi
      rw [List.drop_zero]
      assumption
    · rcases Option.map_eq_some'.mp h with ⟨j, hj, hij⟩
      subst hij
      rw [List.drop_succ_cons]
      exact ih j hj

lemma toList_append (a b : String) : (a ++ b).toList = a.toList ++ b.toList := by
  cases a
  cases b
  rfl

lemma strHasPfx_append (pre s : String) : strHasPfx (pre ++ s) pre = true := by
  unfold strHasPfx
  rw [toList_append, List.isPrefixOf_iff_prefix]
  exact List.prefix_append _ _

lemma kvListKeys_track (now : Nat) (req : Request) (store : KVStore) :
    (kvListKeys (trackPageView now req store) "pageview:").length
      = (kvListKeys store "pageview:").length + 1 := by
  unfold trackPageView kvListKeys
  rw [List.filter_append]
  simp [strHasPfx_append]

lemma fetchFinalTrace_cons (env : FetchEnv) (p2 : String) :
    ∃ rest, fetchFinalTrace env p2 = p2 :: rest := by
  unfold fetchFinalTrace
  cases he : env p2 with
  | error e => exact ⟨[], rfl⟩
  | ok r =>
    dsimp only
    by_cases h4 : r.status = 404
    · rw [if_pos h4]
      exact ⟨["/404.html"], rfl⟩
    · rw [if_neg h4]
      exact ⟨[], rfl⟩

lemma spec_to_final (env : FetchEnv) (p2 : String)
    (hspec : speculateCond p2 = false ∨
      (∀ r2, env (p2 ++ ".html") = Except.ok r2 → respOk r2 = false)) :
    (speculativeStage env p2).1 = fetchFinalResult env p2 := by
  unfold speculativeStage
  by_cases hc : speculateCond p2 = true
  · rw [if_pos hc]
    rcases hspec with hf | hok2
    · rw [hf] at hc
      exact absurd hc (by simp)
    · cases hsp : env (p2 ++ ".html") with
      | error e => rfl
      | ok r2 =>
        dsimp only
        have hr2 := hok2 r2 hsp
        rw [hr2, if_neg (by simp)]
        rfl
  · rw [if_neg hc]
    rfl

/-- C1 (evaluation at the failing input): a POST to /api/contact whose
JSON body fails to parse makes handleRequest itself reject with the
parse error, for every fetch oracle and clock: no Response at all is
produced, contradicting the claim that every failure is converted into
a 500 response with the security headers.  The cause is that the
handler promise is returned from inside try without await at
src/index.js line 86 (and again at line 274), so the rejection raised
by the unguarded request.json() at line 311 bypasses both catch
blocks. -/
theorem c1_escape_topLevel (env : FetchEnv) (now : Nat) :
    handleRequest env now reqMalformedContact =
      Except.error "SyntaxError: Unexpected token i in JSON at position 0" := rfl

/-- C2 counterexample: the path /v1.0/about has no file extension (its
final segment contains no dot), does not end in a separator, and is not
the root, a redirect key, an API path or a clean-URL alias key, yet the
code performs no speculative .html fetch: the one and only fetch is the
path itself, because the code guard tests for a dot anywhere in the
path, and /v1.0/about contains one in a directory segment. -/
theorem c2_counterexample :
    specHasFileExt "/v1.0/about" = false ∧
    strHasSfx "/v1.0/about" "/" = false ∧
    jsLookup CLEAN_URLS "/v1.0/about" = none ∧
    jsLookup REDIRECTS "/v1.0/about" = none ∧
    strHasPfx "/v1.0/about" "/api/" = false ∧
    (getOriginResponse envAll200 reqDotDir).2 = ["/v1.0/about"] :=
  ⟨rfl, rfl, rfl, rfl, rfl, rfl⟩

/-- C2 (amended): for every request whose rewritten path contains no
dot character anywhere (not merely no file extension) and does not end
in a separator, origin resolution first fetches the path with .html
appended; if that fetch returns a 2xx status the handler returns that
response, and if it rejects or returns a non-2xx status the handler
falls back to fetching the rewritten path unmodified. -/
theorem c2_amended (env : FetchEnv) (req : Request)
    (h1 : strIncludes (resolvePath req.pathname) "." = false)
    (h2 : strHasSfx (resolvePath req.pathname) "/" = false) :
    ((getOriginResponse env req).2).head? = some (resolvePath req.pathname ++ ".html") ∧
    (∀ r, env (resolvePath req.pathname ++ ".html") = Except.ok r → respOk r = true →
      getOriginResponse env req = (Except.ok r, [resolvePath req.pathname ++ ".html"])) ∧
    (∀ r, env (resolvePath req.pathname ++ ".html") = Except.ok r → respOk r = false →
      ((getOriginResponse env req).2).take 2
        = [resolvePath req.pathname ++ ".html", resolvePath req.pathname]) ∧
    (∀ e, env (resolvePath req.pathname ++ ".html") = Except.error e →
      ((getOriginResponse env req).2).take 2
        = [resolvePath req.pathname ++ ".html", resolvePath req.pathname]) := by
  unfold getOriginResponse
  revert h1 h2
  generalize resolvePath req.pathname = p2
  intro h1 h2
  have hc : speculateCond p2 = true := by
    unfold speculateCond
    rw [h1, h2]
    rfl
  unfold speculativeStage
  rw [if_pos hc]
  cases hsp : env (p2 ++ ".html") with
  | error e0 =>
    dsimp only
    obtain ⟨rest, htr⟩ := fetchFinalTrace_cons env p2
    refine ⟨?_, ?_, ?_, ?_⟩
    · show (([p2 ++ ".html"] ++ fetchFinalTrace env p2).head?) = _
      rfl
    · intro r heq
      exact absurd heq (by simp)
    · intro r heq
      exact absurd heq (by simp)
    · intro e heq
      show (([p2 ++ ".html"] ++ fetchFinalTrace env p2).take 2) = _
      rw [htr]
      rfl
  | ok r0 =>
    dsimp only
    by_cases hro : respOk r0 = true
    · rw [if_pos hro]
      refine ⟨rfl, ?_, ?_, ?_⟩
      · intro r heq hok
        have : r0 = r := by injection heq
        subst this
        rfl
      · intro r heq hfalse
        have : r0 = r := by injection heq
        subst this
        rw [hro] at hfalse
        exact absurd hfalse (by simp)
      · intro e heq
        exact absurd heq (by simp)
    · rw [if_neg hro]
      obtain ⟨rest, htr⟩ := fetchFinalTrace_cons env p2
      refine ⟨?_, ?_, ?_, ?_⟩
      · show (([p2 ++ ".html"] ++ fetchFinalTrace env p2).head?) = _
        rfl
      · intro r heq hok
        have : r0 = r := by injection heq
        subst this
        exact absurd hok hro
      · intro r heq hfalse
        show (([p2 ++ ".html"] ++ fetchFinalTrace env p2).take 2) = _
        rw [htr]
        rfl
      · intro e heq
        exact absurd heq (by simp)

/-- C2 witness: for the extension-free path /about with an oracle that
serves /about.html, the handler returns the speculative response and
fetched only /about.html. -/
theorem c2_witness :
    getOriginResponse envW2 reqW2 = (Except.ok respW2, ["/about.html"]) := by
  have h := c2_amended envW2 reqW2 (by decide) (by decide)
  exact h.2.1 respW2 rfl rfl

/-- C3: whenever the final (possibly fallback) origin fetch yields a
404 response, the handler fetches /404.html; if that fetch succeeds
with a 2xx, it returns that document body with status forced to 404,
statusText Not Found and the document headers; if the /404.html fetch
returns a non-2xx or rejects, it returns the minimal plain-text 404,
never surfacing the raw error. -/
theorem c3_custom_404 (env : FetchEnv) (req : Request) (r : Resp)
    (hspec : speculateCond (resolvePath req.pathname) = false ∨
      (∀ r2, env (resolvePath req.pathname ++ ".html") = Except.ok r2 → respOk r2 = false))
    (hfetch : env (resolvePath req.pathname) = Except.ok r)
    (h404 : r.status = 404) :
    (∀ nf, env "/404.html" = Except.ok nf → respOk nf = true →
      (getOriginResponse env req).1 = Except.ok
        { status := 404, statusText := "Not Found",
          headers := nf.headers, body := nf.body }) ∧
    (∀ nf, env "/404.html" = Except.ok nf → respOk nf = false →
      (getOriginResponse env req).1 = Except.ok plain404) ∧
    (∀ e, env "/404.html" = Except.error e →
      (getOriginResponse env req).1 = Except.ok plain404) := by
  have hred : (getOriginResponse env req).1 = fetchFinalResult env (resolvePath req.pathname) :=
    spec_to_final env (resolvePath req.pathname) hspec
  rw [hred]
  unfold fetchFinalResult
  rw [hfetch]
  dsimp only
  rw [if_pos h404]
  refine ⟨?_, ?_, ?_⟩
  · intro nf heq hok
    rw [heq]
    dsimp only
    rw [if_pos hok]
  · intro nf heq hfalse
    rw [heq]
    dsimp only
    rw [if_neg (by simp [hfalse])]
  · intro e heq
    rw [heq]

/-- C3 witness: a missing .txt path whose origin fetch returns 404,
with a fetchable custom /404.html, yields the custom document body
under status 404. -/
theorem c3_witness :
    (getOriginResponse envW3 reqW3).1 = Except.ok
      { status := 404, statusText := "Not Found",
        headers := [("Content-Type", "text/html")], body := some "custom not found" } := by
  have h := c3_custom_404 envW3 reqW3 resp404W (Or.inl (by decide)) rfl rfl
  exact h.1 nf404W rfl rfl

/-- C4: every response passing through the transformation stage carries
all six fixed security headers with exactly the specified values,
overwriting any origin-supplied header of the same name (the input
response r is arbitrary, so in particular it may carry conflicting
values). -/
theorem c4_security_headers (req : Request) (r : Resp) :
    hGet (applyTransformations req r).headers "X-Frame-Options" = some "DENY" ∧
    hGet (applyTransformations req r).headers "X-Content-Type-Options" = some "nosniff" ∧
    hGet (applyTransformations req r).headers "X-XSS-Protection" = some "1; mode=block" ∧
    hGet (applyTransformations req r).headers "Referrer-Policy"
      = some "strict-origin-when-cross-origin" ∧
    hGet (applyTransformations req r).headers "Permissions-Policy"
      = some "camera=(), microphone=(), geolocation=(), payment=()" ∧
    hGet (applyTransformations req r).headers "Strict-Transport-Security"
      = some "max-age=31536000; includeSubDomains; preload" := by
  refine ⟨?_, ?_, ?_, ?_, ?_, ?_⟩ <;>
    rw [hGet_applyTransformations_nonCache _ _ _ (by decide) (by decide) (by decide),
      setSecurityHeaders_expand]
  · rw [hGet_hSet_diff _ _ _ _ (by decide), hGet_hSet_diff _ _ _ _ (by decide),
      hGet_hSet_diff _ _ _ _ (by decide), hGet_hSet_diff _ _ _ _ (by decide),
      hGet_hSet_diff _ _ _ _ (by decide), hGet_hSet_same _ _ _ _ (by decide)]
  · rw [hGet_hSet_diff _ _ _ _ (by decide), hGet_hSet_diff _ _ _ _ (by decide),
      hGet_hSet_diff _ _ _ _ (by decide), hGet_hSet_diff _ _ _ _ (by decide),
      hGet_hSet_same _ _ _ _ (by decide)]
  · rw [hGet_hSet_diff _ _ _ _ (by decide), hGet_hSet_diff _ _ _ _ (by decide),
      hGet_hSet_diff _ _ _ _ (by decide), hGet_hSet_same _ _ _ _ (by decide)]
  · rw [hGet_hSet_diff _ _ _ _ (by decide), hGet_hSet_diff _ _ _ _ (by decide),
      hGet_hSet_same _ _ _ _ (by decide)]
  · rw [hGet_hSet_diff _ _ _ _ (by decide), hGet_hSet_same _ _ _ _ (by decide)]
  · rw [hGet_hSet_same _ _ _ _ (by decide)]

/-- C4 witness: the six headers on a concrete transformed response
whose origin headers carried conflicting values. -/
theorem c4_witness :
    hGet (applyTransformations reqW4 rW4).headers "X-Frame-Options" = some "DENY" ∧
    hGet (applyTransformations reqW4 rW4).headers "X-Content-Type-Options" = some "nosniff" ∧
    hGet (applyTransformations reqW4 rW4).headers "X-XSS-Protection" = some "1; mode=block" ∧
    hGet (applyTransformations reqW4 rW4).headers "Referrer-Policy"
      = some "strict-origin-when-cross-origin" ∧
    hGet (applyTransformations reqW4 rW4).headers "Permissions-Policy"
      = some "camera=(), microphone=(), geolocation=(), payment=()" ∧
    hGet (applyTransformations reqW4 rW4).headers "Strict-Transport-Security"
      = some "max-age=31536000; includeSubDomains; preload" :=
  c4_security_headers reqW4 rW4

/-- C6: for every origin response with an html content type and a 2xx
status, the transformed body is the origin body with the fixed snippet
inserted immediately before the first closing head tag (the closing tag
located by subFind really occurs at that index), and a body containing
no closing head tag is returned unmodified. -/
theorem c6_html_injection (req : Request) (r : Resp)
    (hct : strIncludes ((hGet r.headers "content-type").getD "") "text/html" = true)
    (hok : respOk r = true) :
    (subFind headCloseL (respText r.body).toList = none →
      (applyTransformations req r).body = some (respText r.body)) ∧
    (∀ i, subFind headCloseL (respText r.body).toList = some i →
      headCloseL.isPrefixOf ((respText r.body).toList.drop i) = true ∧
      (applyTransformations req r).body = some (String.mk
        ((respText r.body).toList.take i ++ INJECT_SNIPPET.toList
          ++ (headCloseL ++ (respText r.body).toList.drop (i + headCloseL.length))))) := by
  have hb := applyTransformations_body_html req r hct hok
  constructor
  · intro hn
    rw [hb]
    unfold replaceFirst
    rw [replaceFirstL_not_found "</head>".toList headReplacement.toList
      ((respText r.body).toList) hn]
    rfl
  · intro i hi
    refine ⟨subFind_prefixAt _ _ _ hi, ?_⟩
    rw [hb]
    unfold replaceFirst
    rw [replaceFirstL_found "</head>".toList headReplacement.toList
      ((respText r.body).toList) i hi]
    rw [show headReplacement.toList = INJECT_SNIPPET.toList ++ headCloseL from
      toList_append INJECT_SNIPPET "</head>"]
    simp only [List.append_assoc]
    rfl

set_option maxRecDepth 8000 in
/-- C6 witness: the snippet lands exactly before the closing head tag
of a concrete page (first occurrence at character index 28). -/
theorem c6_witness :
    headCloseL.isPrefixOf ((respText rW6.body).toList.drop 28) = true ∧
    (applyTransformations reqW6 rW6).body = some (String.mk
      ((respText rW6.body).toList.take 28 ++ INJECT_SNIPPET.toList
        ++ (headCloseL ++ (respText rW6.body).toList.drop (28 + headCloseL.length)))) :=
  (c6_html_injection reqW6 rW6 (by decide) (by decide)).2 28 (by decide)

/-- C7 counterexample: /static/page is a static-asset path, yet when the
origin serves it with an html content type the transformation stage sets
Cache-Control to the html value, not the immutable asset value the claim
requires for every static-asset path, because the content-type branch is
tested first. -/
theorem c7_counterexample :
    isStaticAsset "/static/page" = true ∧
    hGet (applyTransformations reqC7 rC7).headers "Cache-Control"
      = some "public, max-age=3600" :=
  ⟨rfl, rfl⟩

/-- C7 (amended): Cache-Control is set by content type first and path
second: an html content type always gets the one-hour value, a non-html
response on a static-asset path gets the immutable one-year value, and
any other response keeps whatever Cache-Control the origin supplied. -/
theorem c7_amended (req : Request) (r : Resp) :
    (strIncludes ((hGet r.headers "content-type").getD "") "text/html" = true →
      hGet (applyTransformations req r).headers "Cache-Control"
        = some "public, max-age=3600") ∧
    (strIncludes ((hGet r.headers "content-type").getD "") "text/html" = false →
      isStaticAsset req.pathname = true →
      hGet (applyTransformations req r).headers "Cache-Control"
        = some "public, max-age=31536000, immutable") ∧
    (strIncludes ((hGet r.headers "content-type").getD "") "text/html" = false →
      isStaticAsset req.pathname = false →
      hGet (applyTransformations req r).headers "Cache-Control"
        = hGet r.headers "Cache-Control") := by
  refine ⟨?_, ?_, ?_⟩
  · intro h1
    rw [applyTransformations_headers, hGet_hSet_diff _ _ _ _ (by decide),
      hGet_hSet_diff _ _ _ _ (by decide)]
    unfold cacheStep
    rw [if_pos h1, hGet_hSet_same _ _ _ _ (by decide)]
  · intro h1 h2
    rw [applyTransformations_headers, hGet_hSet_diff _ _ _ _ (by decide),
      hGet_hSet_diff _ _ _ _ (by decide)]
    unfold cacheStep
    rw [if_neg (by simp [h1]), if_pos h2, hGet_hSet_same _ _ _ _ (by decide)]
  · intro h1 h2
    rw [applyTransformations_headers, hGet_hSet_diff _ _ _ _ (by decide),
      hGet_hSet_diff _ _ _ _ (by decide)]
    unfold cacheStep
    rw [if_neg (by simp [h1]), if_neg (by simp [h2])]
    exact hGet_setSec_diff _ _ (by decide) (by decide) (by decide) (by decide)
      (by decide) (by decide)

/-- C7 witness: a stylesheet on a static-asset path gets the immutable
one-year cache header. -/
theorem c7_witness :
    hGet (applyTransformations reqW7 rW7).headers "Cache-Control"
      = some "public, max-age=31536000, immutable" :=
  (c7_amended reqW7 rW7).2.1 (by decide) (by decide)

/-- C5 counterexample: a POST to /api/contact whose body fails to parse
does not produce the 400 missing-fields response the claim demands: the
parse rejection propagates out of the API sub-router unhandled, so no
response is produced at all. -/
theorem c5_counterexample :
    handleApi reqW5c = Except.error "SyntaxError: Unexpected end of JSON input" := rfl

/-- C5 (amended): a POST to the analytics endpoint with an unparsable
body is silently discarded and still returns 204 (with the CORS
headers), but a POST to the contact endpoint with a malformed body is
NOT treated as absent data: the JSON parse rejection propagates out of
the contact handler and the API sub-router uncaught, and no 400
validation response is produced. -/
theorem c5_amended :
    (∀ (req : Request) (e : JsError), req.pathname = "/api/analytics" →
      req.method = "POST" → req.jsonBody = Except.error e →
      handleApi req = Except.ok
        { status := 204, statusText := "",
          headers := corsHeaders req.origin, body := none }) ∧
    (∀ (req : Request) (e : JsError), req.pathname = "/api/contact" →
      req.method = "POST" → req.jsonBody = Except.error e →
      handleApi req = Except.error e) := by
  constructor
  · intro req e hp hm hj
    unfold handleApi
    rw [if_neg (by rw [hm]; decide), if_neg (by rw [hp]; decide), if_pos hp]
    unfold handleAnalytics
    rw [if_neg (by rw [hm]; decide)]
  · intro req e hp hm hj
    unfold handleApi
    rw [if_neg (by rw [hm]; decide), if_pos hp]
    unfold handleContactForm
    rw [if_neg (by rw [hm]; decide), hj]

/-- C5 witness: the two halves of the amended claim at concrete
unparsable-body POST requests. -/
theorem c5_witness :
    handleApi reqW5a = Except.ok
      { status := 204, statusText := "",
        headers := corsHeaders "https://site", body := none } ∧
    handleApi { reqW5c with origin := "https://site" }
      = Except.error "SyntaxError: Unexpected end of JSON input" := by
  constructor
  · exact c5_amended.1 reqW5a "SyntaxError: Unexpected end of JSON input" rfl rfl rfl
  · exact c5_amended.2 _ "SyntaxError: Unexpected end of JSON input" rfl rfl rfl

lemma handleContactForm_ok_headers (req : Request) (cors : List (String × String))
    (resp : Resp) (h : handleContactForm req cors = Except.ok resp) :
    resp.headers = jsonHeaders cors := by
  unfold handleContactForm at h
  by_cases hm : req.method = "POST"
  · rw [if_neg (fun hc => hc hm)] at h
    cases hj : req.jsonBody with
    | error e =>
      rw [hj] at h
      simp at h
    | ok fd =>
      rw [hj] at h
      dsimp only at h
      cases hn : jGetE fd "name" with
      | error e1 =>
        rw [hn] at h
        simp at h
      | ok n =>
        rw [hn] at h
        dsimp only at h
        cases he : jGetE fd "email" with
        | error e2 =>
          rw [he] at h
          simp at h
        | ok em =>
          rw [he] at h
          dsimp only at h
          cases hs : jGetE fd "message" with
          | error e3 =>
            rw [hs] at h
            simp at h
          | ok m =>
            rw [hs] at h
            dsimp only at h
            by_cases hv : (!(truthy n) || !(truthy em) || !(truthy m)) = true
            · rw [if_pos hv] at h
              injection h with h'
              rw [← h']
            · rw [if_neg hv] at h
              injection h with h'
              rw [← h']
  · rw [if_pos hm] at h
    injection h with h'
    rw [← h']

lemma handleAnalytics_shape (req : Request) (cors : List (String × String))
    (resp : Resp) (h : handleAnalytics req cors = Except.ok resp) :
    (req.method ≠ "POST" ∧ resp =
      { status := 204, statusText := "", headers := [], body := none }) ∨
    (req.method = "POST" ∧ resp =
      { status := 204, statusText := "", headers := cors, body := none }) := by
  unfold handleAnalytics at h
  by_cases hm : req.method = "POST"
  · rw [if_neg (fun hc => hc hm)] at h
    right
    injection h with h'
    exact ⟨hm, h'.symm⟩
  · rw [if_pos hm] at h
    left
    injection h with h'
    exact ⟨hm, h'.symm⟩

lemma handleApi_cases (req : Request) (resp : Resp)
    (h : handleApi req = Except.ok resp) :
    (req.method = "OPTIONS" ∧ resp =
       { status := 200, statusText := "",
         headers := corsHeaders req.origin, body := none }) ∨
    (req.method ≠ "OPTIONS" ∧ req.pathname = "/api/contact" ∧
       resp.headers = jsonHeaders (corsHeaders req.origin)) ∨
    (req.method ≠ "OPTIONS" ∧ req.pathname = "/api/analytics" ∧ req.method ≠ "POST" ∧
       resp = { status := 204, statusText := "", headers := [], body := none }) ∨
    (req.method ≠ "OPTIONS" ∧ req.pathname = "/api/analytics" ∧ req.method = "POST" ∧
       resp =
         { status := 204, statusText := "",
           headers := corsHeaders req.origin, body := none }) ∨
    (req.method ≠ "OPTIONS" ∧ req.pathname = "/api/resume" ∧
       resp.headers = corsHeaders req.origin ++
         [("Content-Type", "application/json"), ("Cache-Control", "public, max-age=300")]) ∨
    (req.method ≠ "OPTIONS" ∧ req.pathname ≠ "/api/contact" ∧
       req.pathname ≠ "/api/analytics" ∧ req.pathname ≠ "/api/resume" ∧
       resp.headers = jsonHeaders (corsHeaders req.origin)) := by
  unfold handleApi at h
  by_cases hOpt : req.method = "OPTIONS"
  · rw [if_pos hOpt] at h
    injection h with h'
    exact Or.inl ⟨hOpt, h'.symm⟩
  · rw [if_neg hOpt] at h
    by_cases hC : req.pathname = "/api/contact"
    · rw [if_pos hC] at h
      exact Or.inr (Or.inl ⟨hOpt, hC, handleContactForm_ok_headers req _ resp h⟩)
    · rw [if_neg hC] at h
      by_cases hA : req.pathname = "/api/analytics"
      · rw [if_pos hA] at h
        rcases handleAnalytics_shape req _ resp h with ⟨hm, hr⟩ | ⟨hm, hr⟩
        · exact Or.inr (Or.inr (Or.inl ⟨hOpt, hA, hm, hr⟩))
        · exact Or.inr (Or.inr (Or.inr (Or.inl ⟨hOpt, hA, hm, hr⟩)))
      · rw [if_neg hA] at h
        by_cases hR : req.pathname = "/api/resume"
        · rw [if_pos hR] at h
          unfold handleResumeApi at h
          injection h with h'
          exact Or.inr (Or.inr (Or.inr (Or.inr (Or.inl ⟨hOpt, hR, by rw [← h']⟩))))
        · rw [if_neg hR] at h
          injection h with h'
          exact Or.inr (Or.inr (Or.inr (Or.inr (Or.inr
            ⟨hOpt, hC, hA, hR, by rw [← h']⟩))))

/-- C8 counterexample: a GET (non-POST, non-OPTIONS) request to the
/api/analytics endpoint is answered by the API sub-router with a bare
204 carrying no headers at all, so its response does not carry the CORS
headers the claim requires of every API response. -/
theorem c8_counterexample :
    handleApi reqC8 = Except.ok
      { status := 204, statusText := "", headers := [], body := none } ∧
    hGet ([] : List (String × String)) "Access-Control-Allow-Origin" = none :=
  ⟨rfl, rfl⟩

/-- C8 (amended): every response produced by the API sub-router carries
the CORS headers computed from the request origin, except the response
to a non-OPTIONS, non-POST request to the analytics endpoint, which is
a bare 204 with no headers; the preflight case returns exactly the CORS
headers with no body, without reaching the underlying handler logic. -/
theorem c8_amended (req : Request) (resp : Resp)
    (_hp : strHasPfx req.pathname "/api/" = true)
    (h : handleApi req = Except.ok resp) :
    (req.method = "OPTIONS" → resp =
      { status := 200, statusText := "",
        headers := corsHeaders req.origin, body := none }) ∧
    ((req.method ≠ "OPTIONS" ∧ req.pathname = "/api/analytics" ∧ req.method ≠ "POST") →
      resp.headers = []) ∧
    ((req.method ≠ "OPTIONS" ∧ ¬(req.pathname = "/api/analytics" ∧ req.method ≠ "POST")) →
      hGet resp.headers "Access-Control-Allow-Origin" = some req.origin ∧
      hGet resp.headers "Access-Control-Allow-Methods" = some "GET, POST, OPTIONS" ∧
      hGet resp.headers "Access-Control-Allow-Headers" = some "Content-Type" ∧
      hGet resp.headers "Access-Control-Max-Age" = some "86400") := by
  rcases handleApi_cases req resp h with
    ⟨hOpt, hr⟩ | ⟨hOpt, hC, hr⟩ | ⟨hOpt, hA, hm, hr⟩ | ⟨hOpt, hA, hm, hr⟩ |
    ⟨hOpt, hR, hr⟩ | ⟨hOpt, hC, hA, hR, hr⟩
  · exact ⟨fun _ => hr, fun hx => absurd hOpt hx.1, fun hx => absurd hOpt hx.1⟩
  · refine ⟨fun hOpt' => absurd hOpt' hOpt, ?_, ?_⟩
    · intro hx
      exact absurd (hC.symm.trans hx.2.1) (by decide)
    · intro _
      rw [hr]
      exact ⟨rfl, rfl, rfl, rfl⟩
  · refine ⟨fun hOpt' => absurd hOpt' hOpt, ?_, ?_⟩
    · intro _
      rw [hr]
    · intro hx
      exact absurd ⟨hA, hm⟩ hx.2
  · refine ⟨fun hOpt' => absurd hOpt' hOpt, ?_, ?_⟩
    · intro hx
      exact absurd hm hx.2.2
    · intro _
      rw [hr]
      exact ⟨rfl, rfl, rfl, rfl⟩
  · refine ⟨fun hOpt' => absurd hOpt' hOpt, ?_, ?_⟩
    · intro hx
      exact absurd (hR.symm.trans hx.2.1) (by decide)
    · intro _
      rw [hr]
      exact ⟨rfl, rfl, rfl, rfl⟩
  · refine ⟨fun hOpt' => absurd hOpt' hOpt, ?_, ?_⟩
    · intro hx
      exact absurd hx.2.1 hA
    · intro _
      rw [hr]
      exact ⟨rfl, rfl, rfl, rfl⟩

/-- C8 witness: a POST to the analytics endpoint receives all four CORS
headers with the request origin. -/
theorem c8_witness :
    hGet respW8b.headers "Access-Control-Allow-Origin" = some "https://w8" ∧
    hGet respW8b.headers "Access-Control-Allow-Methods" = some "GET, POST, OPTIONS" ∧
    hGet respW8b.headers "Access-Control-Allow-Headers" = some "Content-Type" ∧
    hGet respW8b.headers "Access-Control-Max-Age" = some "86400" :=
  (c8_amended reqW8b respW8b (by decide) rfl).2.2 ⟨by decide, by decide⟩

lemma jsLookup_redirects_api (p : String) (ha : strHasPfx p "/api/" = true) :
    jsLookup REDIRECTS p = none := by
  by_cases h1 : p = "/cv"
  · rw [h1] at ha
    exact absurd ha (by decide)
  · by_cases h2 : p = "/portfolio"
    · rw [h2] at ha
      exact absurd ha (by decide)
    · by_cases h3 : p = "/linkedin"
      · rw [h3] at ha
        exact absurd ha (by decide)
      · by_cases h4 : p = "/github"
        · rw [h4] at ha
          exact absurd ha (by decide)
        · unfold jsLookup REDIRECTS
          have e1 : ("/cv" == p) = false := by
            simp only [beq_eq_false_iff_ne, ne_eq]
            exact fun hc => h1 hc.symm
          have e2 : ("/portfolio" == p) = false := by
            simp only [beq_eq_false_iff_ne, ne_eq]
            exact fun hc => h2 hc.symm
          have e3 : ("/linkedin" == p) = false := by
            simp only [beq_eq_false_iff_ne, ne_eq]
            exact fun hc => h3 hc.symm
          have e4 : ("/github" == p) = false := by
            simp only [beq_eq_false_iff_ne, ne_eq]
            exact fun hc => h4 hc.symm
          simp [List.find?, e1, e2, e3, e4]

/-- C10: every request answered before the transformation stage (the
health check, a redirect-table key, and every API path) receives a
response carrying none of the six fixed security headers; only the
transformation stage and the top-level 500 path attach them. -/
theorem c10_no_security_headers (env : FetchEnv) (now : Nat) (req : Request) (resp : Resp)
    (hwhich : req.pathname = "/health" ∨ (jsLookup REDIRECTS req.pathname).isSome = true ∨
      strHasPfx req.pathname "/api/" = true)
    (h : handleRequest env now req = Except.ok resp) :
    hGet resp.headers "X-Frame-Options" = none ∧
    hGet resp.headers "X-Content-Type-Options" = none ∧
    hGet resp.headers "X-XSS-Protection" = none ∧
    hGet resp.headers "Referrer-Policy" = none ∧
    hGet resp.headers "Permissions-Policy" = none ∧
    hGet resp.headers "Strict-Transport-Security" = none := by
  unfold handleRequest at h
  rcases hwhich with hh | hr | ha
  · rw [if_pos hh] at h
    injection h with h'
    rw [← h']
    exact ⟨rfl, rfl, rfl, rfl, rfl, rfl⟩
  · have hne : req.pathname ≠ "/health" := by
      intro hc
      rw [hc] at hr
      exact absurd hr (by decide)
    rw [if_neg hne] at h
    cases hjl : jsLookup REDIRECTS req.pathname with
    | none =>
      rw [hjl] at hr
      exact absurd hr (by simp)
    | some target =>
      rw [hjl] at h
      dsimp only at h
      injection h with h'
      rw [← h']
      exact ⟨rfl, rfl, rfl, rfl, rfl, rfl⟩
  · have hne : req.pathname ≠ "/health" := by
      intro hc
      rw [hc] at ha
      exact absurd ha (by decide)
    rw [if_neg hne, jsLookup_redirects_api req.pathname ha] at h
    dsimp only at h
    rw [if_pos ha] at h
    rcases handleApi_cases req resp h with
      ⟨_, hr⟩ | ⟨_, _, hr⟩ | ⟨_, _, _, hr⟩ | ⟨_, _, _, hr⟩ | ⟨_, _, hr⟩ | ⟨_, _, _, _, hr⟩
    · rw [hr]
      exact ⟨rfl, rfl, rfl, rfl, rfl, rfl⟩
    · rw [hr]
      exact ⟨rfl, rfl, rfl, rfl, rfl, rfl⟩
    · rw [hr]
      exact ⟨rfl, rfl, rfl, rfl, rfl, rfl⟩
    · rw [hr]
      exact ⟨rfl, rfl, rfl, rfl, rfl, rfl⟩
    · rw [hr]
      exact ⟨rfl, rfl, rfl, rfl, rfl, rfl⟩
    · rw [hr]
      exact ⟨rfl, rfl, rfl, rfl, rfl, rfl⟩

/-- C10 witness: the health response carries none of the six security
headers. -/
theorem c10_witness :
    hGet (healthResp 0).headers "X-Frame-Options" = none ∧
    hGet (healthResp 0).headers "X-Content-Type-Options" = none ∧
    hGet (healthResp 0).headers "X-XSS-Protection" = none ∧
    hGet (healthResp 0).headers "Referrer-Policy" = none ∧
    hGet (healthResp 0).headers "Permissions-Policy" = none ∧
    hGet (healthResp 0).headers "Strict-Transport-Security" = none :=
  c10_no_security_headers envW10 0 reqW10 (healthResp 0) (Or.inl rfl) rfl

/-- C9 counterexample: with one pageview record from day 0 and one from
day 1, a scheduled run on day 1 counts 2 records, while the records
belonging to the current day number 1: the aggregator lists by the bare
record prefix, not by a day-scoped prefix. -/
theorem c9_counterexample :
    (handleScheduled 86400000
      [("pageview:0", "v0"), ("pageview:86400000", "v1")]).totalPageViews = 2 ∧
    dayOfKey "pageview:0" = some 0 ∧
    dayOfKey "pageview:86400000" = some 1 ∧
    dayOf 86400000 = 1 ∧
    (([("pageview:0", "v0"), ("pageview:86400000", "v1")] : KVStore).filter
      (fun p => dayOfKey p.1 == some (dayOf 86400000))).length = 1 := by
  refine ⟨rfl, rfl, rfl, rfl, ?_⟩
  decide

/-- C9 (amended): the scheduled aggregator lists every stored pageview
record by the bare key prefix, regardless of the day it belongs to, and
its count equals the number of all retained records; only the date
label of the summary reflects the current day. -/
theorem c9_amended (now : Nat) (times : List Nat) (req : Request) :
    (handleScheduled now (times.foldl (fun s t => trackPageView t req s) [])).totalPageViews
      = times.length ∧
    (handleScheduled now (times.foldl (fun s t => trackPageView t req s) [])).date
      = dayOf now := by
  constructor
  · have gen : ∀ (ts : List Nat) (store : KVStore),
        (kvListKeys (ts.foldl (fun s t => trackPageView t req s) store) "pageview:").length
          = (kvListKeys store "pageview:").length + ts.length := by
      intro ts
      induction ts with
      | nil =>
        intro store
        simp
      | cons a l ih =>
        intro store
        rw [List.foldl_cons, ih, kvListKeys_track, List.length_cons]
        omega
    show (kvListKeys (times.foldl (fun s t => trackPageView t req s) []) "pageview:").length
      = times.length
    rw [gen times []]
    simp [kvListKeys]
  · rfl

/-- C9 witness: two pageview writes from different days are both
counted by a run whose clock is day 0. -/
theorem c9_witness :
    (handleScheduled 5
      ([3, 90000000].foldl (fun s t => trackPageView t reqW9 s) [])).totalPageViews = 2 ∧
    (handleScheduled 5
      ([3, 90000000].foldl (fun s t => trackPageView t reqW9 s) [])).date = dayOf 5 :=
  c9_amended 5 [3, 90000000] reqW9
